import Mathlib

/-!
Verification development for the ArXiv chatbot repository.

The file shallowly embeds the Python source:
  - `src/core/tool_executor.py` (registry validation, tool dispatch, result
    formatting),
  - `src/tools/arxiv_tools.py` (paper search validation, topic-partition
    merge and save, extraction scan),
  - `src/core/chatbot.py` (`_process_response`, the conversation loop),
  - `src/config.py` (`get_topic_dir`).
Python values crossing the tool boundary are modelled by `PyValue`;
Python exceptions by `Except` with explicit error types mirroring the
exception classes and message strings of the source.
-/

/-- Single-quote character, used to build the exact Python message strings
(which quote tool names and topics with single quotes). -/
def squo : String := String.singleton (Char.ofNat 39)

/-- Model of the Python values that flow through the tool layer:
`None`, strings, ints, lists and (insertion-ordered) dicts. -/
inductive PyValue where
  | none
  | str (s : String)
  | int (n : Int)
  | list (xs : List PyValue)
  | dict (kvs : List (String × PyValue))

/-- Python `str()` of the scalar values the tools actually return.
`str` on a string is the string itself; on an int its decimal form;
`str(None)` is `"None"`.  Containers fall back to a bracketed rendering
of their elements (the tools only ever put strings in result lists, for
which only the scalar cases matter). -/
def pyStr : PyValue → String
  | .none => "None"
  | .str s => s
  | .int n => toString n
  | .list xs => "[" ++ String.intercalate ", " (pyStrList xs) ++ "]"
  | .dict kvs => "\x7b" ++ String.intercalate ", " (pyStrDict kvs) ++ "\x7d"
where
  pyStrList : List PyValue → List String
    | [] => []
    | x :: xs => pyStr x :: pyStrList xs
  pyStrDict : List (String × PyValue) → List String
    | [] => []
    | (k, v) :: kvs => (k ++ ": " ++ pyStr v) :: pyStrDict kvs

/-- Python `str.strip()` with no arguments: drop leading and trailing
whitespace. -/
def pyStrip (s : String) : String :=
  String.mk (((s.data.dropWhile Char.isWhitespace).reverse.dropWhile
    Char.isWhitespace).reverse)

/-- Python `str.lower()`. -/
def pyLower (s : String) : String := String.mk (s.data.map Char.toLower)

/-- Python `str.replace(c, r)` for a single-character pattern (the only
shape the source uses). -/
def pyReplaceChar (c r : Char) (s : String) : String :=
  String.mk (s.data.map (fun x => if x = c then r else x))

/-- Escape of one character as `json.dumps` renders it (for the
characters that can occur here: quote, backslash, control
whitespace). -/
def jsonEscapeChar (c : Char) : String :=
  if c = Char.ofNat 34 then "\\" ++ String.singleton (Char.ofNat 34)
  else if c = Char.ofNat 92 then "\\\\"
  else if c = Char.ofNat 10 then "\\n"
  else if c = Char.ofNat 9 then "\\t"
  else if c = Char.ofNat 13 then "\\r"
  else String.singleton c

/-- JSON string escaping as `json.dumps` performs it. -/
def jsonEscape (s : String) : String :=
  String.join (s.data.map jsonEscapeChar)

/-- Indentation prefix of `n` spaces. -/
def indentSpaces (n : Nat) : String := String.mk (List.replicate n ' ')

/-- Quote of the double-quote character, for building JSON text. -/
def dq : String := String.singleton (Char.ofNat 34)

mutual
/-- Embedding of `json.dumps(v, indent=2)` at nesting level `lvl`:
dicts and lists are rendered multi-line with two-space indentation,
keys in insertion order. -/
def jsonDump (lvl : Nat) : PyValue → String
  | .none => "null"
  | .str s => dq ++ jsonEscape s ++ dq
  | .int n => toString n
  | .list [] => "[]"
  | .list (x :: xs) =>
      "[\n" ++ String.intercalate ",\n"
          (jsonDumpList (lvl + 1) (x :: xs)) ++
        "\n" ++ indentSpaces (lvl * 2) ++ "]"
  | .dict [] => "\x7b\x7d"
  | .dict (kv :: kvs) =>
      "\x7b\n" ++ String.intercalate ",\n"
          (jsonDumpDict (lvl + 1) (kv :: kvs)) ++
        "\n" ++ indentSpaces (lvl * 2) ++ "\x7d"

/-- Renders each list element, indented to level `lvl`. -/
def jsonDumpList (lvl : Nat) : List PyValue → List String
  | [] => []
  | x :: xs => (indentSpaces (lvl * 2) ++ jsonDump lvl x) :: jsonDumpList lvl xs

/-- Renders each dict entry `"key": value`, indented to level `lvl`. -/
def jsonDumpDict (lvl : Nat) : List (String × PyValue) → List String
  | [] => []
  | (k, v) :: kvs =>
      (indentSpaces (lvl * 2) ++ dq ++ jsonEscape k ++ dq ++ ": " ++ jsonDump lvl v) ::
        jsonDumpDict lvl kvs
end

/-- Embedding of `ToolExecutor._format_result` (tool_executor.py:108-125):
`None` maps to the fixed sentinel, lists to the comma-join of their
elements under `str()`, dicts to `json.dumps(result, indent=2,
ensure_ascii=False)`, anything else to `str(result)`. -/
def _format_result (result : PyValue) : String :=
  match result with
  | .none => "The operation completed but didn't return any results."
  | .list xs => String.intercalate ", " (xs.map pyStr)
  | .dict kvs => jsonDump 0 (.dict kvs)
  | r => pyStr r

/-- Generic lookup in a Python-dict-as-association-list (first match). -/
def assocLookup {α : Type} : List (String × α) → String → Option α
  | [], _ => Option.none
  | (k0, v0) :: rest, k => if k0 = k then some v0 else assocLookup rest k

/-- Python dict assignment `m[k] = v`: overwrite in place when the key is
present, append at the end otherwise (insertion order preserved). -/
def assocSet {α : Type} : List (String × α) → String → α → List (String × α)
  | [], k, v => [(k, v)]
  | (k0, v0) :: rest, k, v =>
      if k0 = k then (k0, v) :: rest else (k0, v0) :: assocSet rest k v

/-- Persisted paper metadata (the dict built at arxiv_tools.py:75-81). -/
structure PaperRecord where
  title : String
  authors : List String
  summary : String
  pdf_url : String
  published : String
deriving DecidableEq, Repr

/-- One result from the external arXiv index (the fields of an
`arxiv.Result` the code reads). -/
structure Paper where
  short_id : String
  title : String
  authors : List String
  summary : String
  pdf_url : String
  published : String
deriving DecidableEq, Repr

/-- The `paper_info` dict built for each search result
(arxiv_tools.py:75-81). -/
def paper_info (p : Paper) : PaperRecord :=
  ⟨p.title, p.authors, p.summary, p.pdf_url, p.published⟩

/-- Contents of one topic partition file `papers_info.json`:
paper id → record, in insertion order. -/
abbrev PapersInfo := List (String × PaperRecord)

/-- The paper store: topic-directory name → partition contents, in the
order `config.paper_dir.iterdir()` yields the directories. -/
abbrev PaperStore := List (String × PapersInfo)

/-- Embedding of `Config.get_topic_dir` (config.py:63-66): lower-case the
topic and replace spaces and slashes with underscores. -/
def get_topic_dir (topic : String) : String :=
  pyReplaceChar '/' '_' (pyReplaceChar ' ' '_' (pyLower topic))

/-- Python-exception model at the tool boundary: `TypeError` (the class
the executor distinguishes) versus any other exception, each carrying
its `str(e)` message. -/
inductive PyErr where
  | typeErr (msg : String)
  | exc (msg : String)
deriving DecidableEq, Repr

/-- Message of the modelled exception (`str(e)`). -/
def PyErr.msg : PyErr → String
  | .typeErr m => m
  | .exc m => m

/-- The `for paper in papers` loop of `search_papers`
(arxiv_tools.py:70-83): collect ids in order and merge each record into
the partition dict, overwriting an existing entry for the same id. -/
def mergeLoop : List Paper → List String × PapersInfo → List String × PapersInfo
  | [], acc => acc
  | p :: ps, (ids, info) =>
      mergeLoop ps (ids ++ [p.short_id], assocSet info p.short_id (paper_info p))

/-- Body of the `try` block of `search_papers` (arxiv_tools.py:41-89),
with the external index mocked by `papers` and the filesystem by
`store`: validate the topic and the result cap, load the topic
partition, merge the results, save, and return the ordered id list. -/
def search_papers_core (papers : List Paper) (store : PaperStore)
    (topic : String) (max_results : Int) :
    Except PyErr (List String × PaperStore) :=
  if pyStrip topic = "" then
    .error (.exc "Topic cannot be empty")
  else if max_results ≤ 0 ∨ max_results > 20 then
    .error (.exc "max_results must be between 1 and 20")
  else
    let dir := get_topic_dir topic
    let existing := (assocLookup store dir).getD []
    let res := mergeLoop papers ([], existing)
    .ok (res.1, assocSet store dir res.2)

/-- Embedding of `search_papers` (arxiv_tools.py:27-98): the
`except Exception` clause catches every exception raised in the body —
including the function's own `PaperSearchError` validation raises — and
re-raises `PaperSearchError` with the "Unexpected error" wrapper naming
the topic.  (The `except arxiv.ArxivError` clause never fires with the
index mocked to succeed.) -/
def search_papers (papers : List Paper) (store : PaperStore)
    (topic : String) (max_results : Int) :
    Except PyErr (List String × PaperStore) :=
  match search_papers_core papers store topic max_results with
  | .ok r => .ok r
  | .error e =>
      .error (.exc ("Unexpected error while searching for papers on " ++
        squo ++ topic ++ squo ++ ": " ++ e.msg))

/-- The dict `papers_info[paper_id]` as `json.dumps` sees it: keys in the
insertion order of arxiv_tools.py:75-81. -/
def recordToPy (r : PaperRecord) : PyValue :=
  .dict [("title", .str r.title),
         ("authors", .list (r.authors.map .str)),
         ("summary", .str r.summary),
         ("pdf_url", .str r.pdf_url),
         ("published", .str r.published)]

/-- The directory scan of `extract_info` (arxiv_tools.py:124-135): visit
partitions in iteration order and return the first one containing the
id. -/
def findPaper : PaperStore → String → Option PaperRecord
  | [], _ => Option.none
  | (_, info) :: rest, pid =>
      match assocLookup info pid with
      | some r => some r
      | Option.none => findPaper rest pid

/-- Embedding of `extract_info` (arxiv_tools.py:100-143) over the store
model: empty id returns its fixed string; a found record is rendered
with `json.dumps(..., indent=2)`; otherwise the fixed not-found string.
A missing paper directory behaves as the empty store. -/
def extract_info (store : PaperStore) (paper_id : String) :
    Except PyErr String :=
  if pyStrip paper_id = "" then
    .ok "Paper ID cannot be empty."
  else
    match findPaper store paper_id with
    | some r => .ok (jsonDump 0 (recordToPy r))
    | Option.none =>
        .ok ("No saved information found for paper " ++ paper_id ++ ".")

/-- A registered tool implementation: its Python function name, its
required and optional (defaulted) parameter names, and its body, which
receives the keyword arguments and either returns a value or raises. -/
structure ToolImpl where
  pyName : String
  requiredParams : List String
  optionalParams : List String
  run : List (String × PyValue) → Except PyErr PyValue

/-- Required parameters absent from the argument mapping. -/
def missingKeys (impl : ToolImpl) (args : List (String × PyValue)) : List String :=
  impl.requiredParams.filter (fun k => !(args.map Prod.fst).contains k)

/-- Argument keys that match no declared parameter. -/
def unexpectedKeys (impl : ToolImpl) (args : List (String × PyValue)) : List String :=
  (args.map Prod.fst).filter
    (fun k => !(impl.requiredParams ++ impl.optionalParams).contains k)

/-- Message of the `TypeError` CPython raises when keyword binding fails;
the interpreter wording is abstracted to a deterministic listing of the
offending keys, which the message always names. -/
def typeErrorMsg (fname : String) (missing unexpected : List String) : String :=
  fname ++ "() keyword binding failed; missing: [" ++
    String.intercalate ", " missing ++ "]; unexpected: [" ++
    String.intercalate ", " unexpected ++ "]"

/-- Embedding of the call `tool_function(**tool_args)`
(tool_executor.py:89): keyword binding raises `TypeError` when a
required parameter is missing or an argument key is undeclared;
otherwise the body runs. -/
def callTool (impl : ToolImpl) (args : List (String × PyValue)) :
    Except PyErr PyValue :=
  if missingKeys impl args = [] ∧ unexpectedKeys impl args = [] then
    impl.run args
  else
    .error (.typeErr
      (typeErrorMsg impl.pyName (missingKeys impl args) (unexpectedKeys impl args)))

/-- The two exception classes `ToolExecutor.execute_tool` raises
(tool_executor.py:14-24), each with its message. -/
inductive ToolExecutorError where
  | toolNotFound (msg : String)
  | toolExecution (msg : String)
deriving DecidableEq, Repr

/-- Embedding of `ToolExecutor.execute_tool` (tool_executor.py:61-106)
over an explicit mapping: unknown names raise `ToolNotFoundError`
listing the available tools; a `TypeError` from the call is wrapped as
the "Invalid arguments" `ToolExecutionError`; any other exception is
wrapped as the "execution failed" `ToolExecutionError`; a successful
result is formatted by `_format_result`. -/
def execute_tool (mapping : List (String × ToolImpl))
    (tool_name : String) (tool_args : List (String × PyValue)) :
    Except ToolExecutorError String :=
  match assocLookup mapping tool_name with
  | Option.none =>
      .error (.toolNotFound ("Tool " ++ squo ++ tool_name ++ squo ++
        " not found. Available tools: " ++
        String.intercalate ", " (mapping.map Prod.fst)))
  | some tool_function =>
      match callTool tool_function tool_args with
      | .ok result => .ok (_format_result result)
      | .error (.typeErr m) =>
          .error (.toolExecution ("Invalid arguments for tool " ++ squo ++
            tool_name ++ squo ++ ": " ++ m))
      | .error (.exc m) =>
          .error (.toolExecution ("Tool " ++ squo ++ tool_name ++ squo ++
            " execution failed: " ++ m))

/-- Registered implementation of `search_papers`, with the mocked index
and store closed over; its Python signature is
`search_papers(topic: str, max_results: int = 5)`.  The returned id
list becomes a `PyValue.list`; the saved store is a filesystem side
effect outside the executor's return value.  A non-string `topic` or
non-int `max_results` fails inside the body and is caught by the
function's own `except Exception` wrapper (message abstracted). -/
def searchPapersTool (papers : List Paper) (store : PaperStore) : ToolImpl where
  pyName := "search_papers"
  requiredParams := ["topic"]
  optionalParams := ["max_results"]
  run := fun args =>
    let topicV := (assocLookup args "topic").getD .none
    let mrV := (assocLookup args "max_results").getD (.int 5)
    match topicV, mrV with
    | .str topic, .int mr =>
        (search_papers papers store topic mr).map (fun r => .list (r.1.map .str))
    | .str topic, _ =>
        .error (.exc ("Unexpected error while searching for papers on " ++
          squo ++ topic ++ squo ++ ": unorderable max_results"))
    | v, _ =>
        .error (.exc ("Unexpected error while searching for papers on " ++
          squo ++ pyStr v ++ squo ++ ": topic has no strip attribute"))

/-- Registered implementation of `extract_info`, with the store closed
over; its Python signature is `extract_info(paper_id: str)`. -/
def extractInfoTool (store : PaperStore) : ToolImpl where
  pyName := "extract_info"
  requiredParams := ["paper_id"]
  optionalParams := []
  run := fun args =>
    match (assocLookup args "paper_id").getD .none with
    | .str pid => (extract_info store pid).map .str
    | v =>
        .error (.exc ("Unexpected error while extracting info for paper " ++
          squo ++ pyStr v ++ squo ++ ": paper_id has no strip attribute"))

/-- The `_tool_mapping` dict of `ToolExecutor.__init__`
(tool_executor.py:30-33), in insertion order. -/
def _tool_mapping (papers : List Paper) (store : PaperStore) :
    List (String × ToolImpl) :=
  [("search_papers", searchPapersTool papers store),
   ("extract_info", extractInfoTool store)]

/-- Modelled from the spec: `tools/schemas.py` (the `TOOL_SCHEMAS` list
imported at tool_executor.py:10) is not under `src/`.  Per the spec,
"tool behavior is fixed to exactly the two operations named above"
(§1) and the schema list advertises the two tools bound in the
implementation mapping, so its name set is exactly these two names. -/
def TOOL_SCHEMAS_names : List String := ["search_papers", "extract_info"]

/-- The mismatch data of the registry-construction failure
(tool_executor.py:39-49): the schema names missing from the mapping and
the mapping names missing from the schemas, in source order. -/
structure RegistryMismatch where
  missing_in_mapping : List String
  missing_in_schemas : List String
deriving DecidableEq, Repr

/-- Python set equality of two name collections. -/
def setEqNames (a b : List String) : Bool :=
  a.all (b.contains ·) && b.all (a.contains ·)

/-- Embedding of the validation in `ToolExecutor.__init__`
(tool_executor.py:35-49): construction succeeds exactly when the schema
name-set equals the mapping name-set; otherwise it raises
`ToolExecutorError` carrying both difference sets (the Python message
interpolates exactly these two sets). -/
def ToolExecutor_init (schema_tools mapping_tools : List String) :
    Except RegistryMismatch Unit :=
  if setEqNames schema_tools mapping_tools then .ok ()
  else
    .error ⟨schema_tools.filter (fun n => !mapping_tools.contains n),
            mapping_tools.filter (fun n => !schema_tools.contains n)⟩

/-- One content segment of a model response (the `content.type` values
`_process_response` inspects at chatbot.py:186-191; any other segment
type falls through both branches untouched). -/
inductive ContentSegment where
  | text (t : String)
  | toolUse (name : String) (id : String) (args : List (String × PyValue))
  | toolResultSeg (tool_use_id : String) (content : String)

/-- Tests for `content.type == 'text'`. -/
def ContentSegment.isText : ContentSegment → Bool
  | .text _ => true
  | _ => false

/-- Tests for `content.type == 'tool_use'`. -/
def ContentSegment.isToolUse : ContentSegment → Bool
  | .toolUse _ _ _ => true
  | _ => false

/-- Display texts of the text segments of a list, in order. -/
def textStrings (segs : List ContentSegment) : List String :=
  segs.filterMap (fun s =>
    match s with
    | .text t => some t
    | _ => Option.none)

/-- The fields of a tool-use segment that `_execute_tool` reads
(chatbot.py:229-231). -/
structure ToolUseInfo where
  name : String
  id : String
  args : List (String × PyValue)

/-- Outcome of one pass of the `for content in response.content` scan
(chatbot.py:186-213): the texts printed, the accumulated
`assistant_content`, the tool-use segment the pass dispatched (if any),
and the segments left unprocessed by the `break`. -/
structure ScanOut where
  printed : List String
  content : List ContentSegment
  dispatch : Option ToolUseInfo
  unprocessed : List ContentSegment

/-- The segment scan itself: text segments are printed and appended to
`assistant_content`; the first tool-use segment is appended, recorded
as the dispatch, and the scan stops (`break`); other segment types are
skipped. -/
def scanPass : List ContentSegment → ScanOut
  | [] => ⟨[], [], Option.none, []⟩
  | .text t :: rest =>
      let r := scanPass rest
      ⟨t :: r.printed, .text t :: r.content, r.dispatch, r.unprocessed⟩
  | .toolUse n i a :: rest => ⟨[], [.toolUse n i a], some ⟨n, i, a⟩, rest⟩
  | .toolResultSeg _ _ :: rest => scanPass rest

/-- One conversation message as `_process_response` appends them: the
initial user query, an assistant message carrying content segments
(chatbot.py:199), or the user-role tool-result message
(chatbot.py:202-209). -/
inductive Message where
  | user (content : String)
  | assistant (content : List ContentSegment)
  | toolResultMsg (tool_use_id : String) (content : String)

/-- State of the `while process_query` loop of `_process_response`
(chatbot.py:180-217): the response being scanned, the message list, the
texts printed so far, and counters for tool dispatches and follow-up
API calls. -/
structure EngineState where
  response : List ContentSegment
  messages : List Message
  printed : List String
  dispatches : Nat
  apiCalls : Nat

/-- One iteration of the `while process_query` loop.  `tool_runner`
models `_execute_tool` (which always returns a string), `api` models
`_call_api`, giving the response to the n-th follow-up call.  The
returned flag is true exactly when `process_query` is set to False
(loop exit): no tool call was dispatched and the response holds at
least one text segment (chatbot.py:215-217).  On a dispatch the
assistant message and the tool-result message are appended and a new
response is fetched. -/
def engineStep (tool_runner : ToolUseInfo → String)
    (api : Nat → List ContentSegment) (st : EngineState) :
    EngineState × Bool :=
  let s := scanPass st.response
  match s.dispatch with
  | some tu =>
      let tool_result := tool_runner tu
      ({ response := api st.apiCalls,
         messages := st.messages ++
           [.assistant s.content, .toolResultMsg tu.id tool_result],
         printed := st.printed ++ s.printed,
         dispatches := st.dispatches + 1,
         apiCalls := st.apiCalls + 1 }, false)
  | Option.none =>
      ({ st with printed := st.printed ++ s.printed },
       st.response.any ContentSegment.isText)

/-- The loop of `_process_response`, run on bounded fuel: `some` final
state when the loop exits within `fuel` iterations, `none` when it is
still running. -/
def engineRun (tool_runner : ToolUseInfo → String)
    (api : Nat → List ContentSegment) :
    Nat → EngineState → Option EngineState
  | 0, _ => Option.none
  | fuel + 1, st =>
      match engineStep tool_runner api st with
      | (st1, true) => some st1
      | (st1, false) => engineRun tool_runner api fuel st1

/-- Initial loop state for a fresh query `q` whose first model response
is `response` (chatbot.py:74-80). -/
def initState (q : String) (response : List ContentSegment) : EngineState :=
  ⟨response, [.user q], [], 0, 0⟩

/-- Concrete tool runner for closed instances: result "r1" for
invocation id "t1", "r2" otherwise. -/
def demoRunner (tu : ToolUseInfo) : String :=
  if tu.id = "t1" then "r1" else "r2"

/-- Scripted follow-up responses for the closed conversation trace: the
first follow-up call returns a second tool use, every later one the
final text. -/
def demoApi (n : Nat) : List ContentSegment :=
  if n = 0 then [ContentSegment.toolUse "extract_info" "t2" []]
  else [ContentSegment.text "final"]

/-- Stale record for paper 2412.07992v3 sitting in a pre-existing
partition. -/
def recOld : PaperRecord :=
  ⟨"Old title", ["A. Author"], "old summary", "http://old", "2024-01-01"⟩

/-- Fresh index result for the same paper id with different fields. -/
def paperNew : Paper :=
  ⟨"2412.07992v3", "New title", ["B. Author"], "new summary",
   "http://new", "2024-12-10"⟩

/-- Store holding one earlier topic partition that already contains the
paper id. -/
def storeSeed : PaperStore := [("ai", [("2412.07992v3", recOld)])]

/-- The store after searching "quantum computing" over `storeSeed`: the
old partition is untouched and a new partition is appended. -/
def storeAfter : PaperStore :=
  [("ai", [("2412.07992v3", recOld)]),
   ("quantum_computing", [("2412.07992v3", paper_info paperNew)])]

theorem assocLookup_assocSet_self {α : Type} (m : List (String × α)) (k : String) (v : α) :
    assocLookup (assocSet m k v) k = some v := by
  induction m with
  | nil => simp [assocSet, assocLookup]
  | cons kv rest ih =>
    obtain ⟨k0, v0⟩ := kv
    by_cases hk : k0 = k
    · simp [assocSet, hk, assocLookup]
    · simp [assocSet, hk, assocLookup, ih]

theorem assocLookup_assocSet_ne {α : Type} (m : List (String × α)) (k k2 : String) (v : α)
    (h : k2 ≠ k) :
    assocLookup (assocSet m k v) k2 = assocLookup m k2 := by
  induction m with
  | nil => simp [assocSet, assocLookup, Ne.symm h]
  | cons kv rest ih =>
    obtain ⟨k0, v0⟩ := kv
    by_cases hk : k0 = k
    · subst hk
      simp [assocSet, assocLookup, Ne.symm h]
    · simp [assocSet, hk, assocLookup, ih]

theorem mergeLoop_lookup (ps : List Paper) (ids : List String) (info : PapersInfo)
    (pid : String) (rec : PaperRecord)
    (huniform : ∀ q ∈ ps, q.short_id = pid → paper_info q = rec)
    (hsrc : assocLookup info pid = some rec ∨ ∃ q ∈ ps, q.short_id = pid) :
    assocLookup (mergeLoop ps (ids, info)).2 pid = some rec := by
  induction ps generalizing ids info with
  | nil =>
    rcases hsrc with h | ⟨q, hq, _⟩
    · simpa [mergeLoop] using h
    · exact absurd hq (List.not_mem_nil q)
  | cons p ps ih =>
    have huniform2 : ∀ q ∈ ps, q.short_id = pid → paper_info q = rec :=
      fun q hq => huniform q (List.mem_cons_of_mem _ hq)
    by_cases hp : p.short_id = pid
    · refine ih _ _ huniform2 (Or.inl ?_)
      rw [hp, assocLookup_assocSet_self]
      exact congrArg some (huniform p (List.mem_cons_self _ _) hp)
    · refine ih _ _ huniform2 ?_
      rcases hsrc with h | ⟨q, hq, hqid⟩
      · exact Or.inl (by rw [assocLookup_assocSet_ne _ _ _ _ (fun hh => hp hh.symm)]; exact h)
      · rcases List.mem_cons.mp hq with rfl | hq2
        · exact absurd hqid hp
        · exact Or.inr ⟨q, hq2, hqid⟩

theorem findPaper_assocSet (store : PaperStore) (k : String) (info : PapersInfo)
    (pid : String) (rec : PaperRecord)
    (hin : assocLookup info pid = some rec)
    (hout : ∀ part ∈ store, part.1 ≠ k → assocLookup part.2 pid = Option.none) :
    findPaper (assocSet store k info) pid = some rec := by
  induction store with
  | nil => simp [assocSet, findPaper, hin]
  | cons part rest ih =>
    obtain ⟨k0, v0⟩ := part
    by_cases hk : k0 = k
    · simp [assocSet, hk, findPaper, hin]
    · have h0 : assocLookup v0 pid = Option.none :=
        hout (k0, v0) (List.mem_cons_self _ _) hk
      have ih2 := ih (fun part hp => hout part (List.mem_cons_of_mem _ hp))
      simp [assocSet, hk, findPaper, h0, ih2]

theorem findPaper_none (store : PaperStore) (pid : String)
    (h : ∀ part ∈ store, assocLookup part.2 pid = Option.none) :
    findPaper store pid = Option.none := by
  induction store with
  | nil => simp [findPaper]
  | cons part rest ih =>
    obtain ⟨k0, v0⟩ := part
    have h0 := h (k0, v0) (List.mem_cons_self _ _)
    simp [findPaper, h0, ih (fun part hp => h part (List.mem_cons_of_mem _ hp))]

theorem setEqNames_iff (a b : List String) :
    setEqNames a b = true ↔ ∀ n, (n ∈ a ↔ n ∈ b) := by
  constructor
  · intro h n
    rw [setEqNames, Bool.and_eq_true, List.all_eq_true, List.all_eq_true] at h
    constructor
    · intro hn
      have := h.1 n hn
      simpa [List.contains, List.elem_iff] using this
    · intro hn
      have := h.2 n hn
      simpa [List.contains, List.elem_iff] using this
  · intro h
    rw [setEqNames, Bool.and_eq_true, List.all_eq_true, List.all_eq_true]
    exact ⟨fun n hn => by simpa [List.contains, List.elem_iff] using (h n).mp hn,
           fun n hn => by simpa [List.contains, List.elem_iff] using (h n).mpr hn⟩

theorem scanPass_no_text_no_toolUse (resp : List ContentSegment)
    (h : ∀ s ∈ resp, s.isText = false ∧ s.isToolUse = false) :
    scanPass resp = ⟨[], [], Option.none, []⟩ := by
  induction resp with
  | nil => rfl
  | cons s rest ih =>
    cases s with
    | text t =>
      exact absurd (h _ (List.mem_cons_self _ _)).1 (by simp [ContentSegment.isText])
    | toolUse n i a =>
      exact absurd (h _ (List.mem_cons_self _ _)).2 (by simp [ContentSegment.isToolUse])
    | toolResultSeg i c =>
      simpa [scanPass] using ih (fun s hs => h s (List.mem_cons_of_mem _ hs))

/-- C6: the Tool Runner's result formatting maps `None` to the fixed
no-results sentinel, a list to the comma-joined string forms of its
elements in order with no deduplication (so the list of "a" and "b"
formats as "a, b"), a dict to the deterministic multi-line
`json.dumps(..., indent=2)` rendering preserving its keys, and any
other value to its default string form. -/
theorem formatResult_spec :
    _format_result .none =
        "The operation completed but didn't return any results."
    ∧ (∀ xs, _format_result (.list xs) = String.intercalate ", " (xs.map pyStr))
    ∧ _format_result (.list [.str "a", .str "b"]) = "a, b"
    ∧ (∀ kvs, _format_result (.dict kvs) = jsonDump 0 (.dict kvs))
    ∧ _format_result (.dict [("k", .str "v")]) = "\x7b\n  \"k\": \"v\"\n\x7d"
    ∧ (∀ n : Int, _format_result (.int n) = toString n)
    ∧ (∀ s, _format_result (.str s) = s) :=
  ⟨rfl, fun _ => rfl, rfl, fun _ => rfl, rfl, fun _ => rfl, fun _ => rfl⟩

/-- C1: when a response contains a tool-use segment, the scan pass
dispatches exactly the first one, emits every text segment before it
(in order) to output and to the pending assistant content, and leaves
every segment after it unprocessed. -/
theorem scanPass_first_toolUse (before after : List ContentSegment)
    (n i : String) (a : List (String × PyValue))
    (h : ∀ s ∈ before, s.isToolUse = false) :
    scanPass (before ++ ContentSegment.toolUse n i a :: after) =
      ⟨textStrings before,
       before.filter ContentSegment.isText ++ [.toolUse n i a],
       some ⟨n, i, a⟩, after⟩ := by
  induction before with
  | nil => simp [scanPass, textStrings]
  | cons s rest ih =>
    have hrest : ∀ x ∈ rest, x.isToolUse = false :=
      fun x hx => h x (List.mem_cons_of_mem _ hx)
    cases s with
    | text t =>
      simp [scanPass, ih hrest, textStrings, List.filterMap_cons,
        List.filter_cons, ContentSegment.isText]
    | toolUse n2 i2 a2 =>
      exact absurd (h _ (List.mem_cons_self _ _))
        (by simp [ContentSegment.isToolUse])
    | toolResultSeg i2 c2 =>
      simp [scanPass, ih hrest, textStrings, List.filterMap_cons,
        List.filter_cons, ContentSegment.isText]

/-- Witness for C1, at the response of the spec's test:
text "Hello", then tool use t1, then text "ignored". -/
theorem scanPass_first_toolUse_witness :
    scanPass [ContentSegment.text "Hello",
              ContentSegment.toolUse "search_papers" "t1" [],
              ContentSegment.text "ignored"] =
      ⟨["Hello"],
       [.text "Hello", .toolUse "search_papers" "t1" []],
       some ⟨"search_papers", "t1", []⟩,
       [.text "ignored"]⟩ :=
  scanPass_first_toolUse [ContentSegment.text "Hello"]
    [ContentSegment.text "ignored"] "search_papers" "t1" []
    (by
      intro s hs
      rw [List.mem_singleton] at hs
      subst hs
      rfl)

/-- C10: a response with neither a text segment nor a tool-use segment
leaves the loop state unchanged (no model call is issued, no message
appended) and the loop never terminates, for any amount of fuel. -/
theorem engineLoop_nontermination (tool_runner : ToolUseInfo → String)
    (api : Nat → List ContentSegment) (st : EngineState)
    (h : ∀ s ∈ st.response, s.isText = false ∧ s.isToolUse = false) :
    engineStep tool_runner api st = (st, false)
    ∧ ∀ fuel, engineRun tool_runner api fuel st = Option.none := by
  have hscan := scanPass_no_text_no_toolUse st.response h
  have hany : st.response.any ContentSegment.isText = false := by
    rw [List.any_eq_false]
    exact fun s hs => by simp [(h s hs).1]
  have hstep : engineStep tool_runner api st = (st, false) := by
    simp [engineStep, hscan, hany]
  refine ⟨hstep, ?_⟩
  intro fuel
  induction fuel with
  | zero => rfl
  | succ fuel ih => simp [engineRun, hstep, ih]

/-- Witness for C10, at the empty content list. -/
theorem engineLoop_nontermination_witness :
    engineStep demoRunner demoApi (initState "q" []) = (initState "q" [], false)
    ∧ engineRun demoRunner demoApi 5 (initState "q" []) = Option.none := by
  have h := engineLoop_nontermination demoRunner demoApi (initState "q" [])
    (by intro s hs; exact absurd hs (List.not_mem_nil s))
  exact ⟨h.1, h.2 5⟩

/-- C2: the loop exits exactly when a pass dispatched no tool-use
segment and the response holds at least one text segment; and for the
scripted sequence tool-use, tool-use, text, the engine dispatches
exactly twice before terminating, appending one assistant message and
one tool-result message per dispatch. -/
theorem engineLoop_termination :
    (∀ (tool_runner : ToolUseInfo → String)
        (api : Nat → List ContentSegment) (st : EngineState),
      (engineStep tool_runner api st).2 = true ↔
        ((scanPass st.response).dispatch = Option.none ∧
         st.response.any ContentSegment.isText = true))
    ∧ engineRun demoRunner demoApi 10
        (initState "q" [ContentSegment.toolUse "search_papers" "t1" []]) =
      some ⟨[ContentSegment.text "final"],
            [.user "q",
             .assistant [.toolUse "search_papers" "t1" []],
             .toolResultMsg "t1" "r1",
             .assistant [.toolUse "extract_info" "t2" []],
             .toolResultMsg "t2" "r2"],
            ["final"], 2, 2⟩ := by
  constructor
  · intro tool_runner api st
    unfold engineStep
    cases hd : (scanPass st.response).dispatch with
    | none => simp [hd]
    | some tu => simp [hd]
  · rfl

/-- C3: a topic empty after stripping whitespace signals a validation
error, a max_results outside the inclusive range 1..20 signals a
validation error, every max_results in 1..20 passes validation with
the index mocked to succeed, and through the Tool Runner these
validation failures surface as wrapped ToolExecutionError messages. -/
theorem searchPapers_validation :
    (∀ papers store topic mr, pyStrip topic = "" →
      search_papers papers store topic mr =
        .error (.exc ("Unexpected error while searching for papers on " ++
          squo ++ topic ++ squo ++ ": Topic cannot be empty")))
    ∧ (∀ papers store topic mr, pyStrip topic ≠ "" → (mr < 1 ∨ mr > 20) →
        search_papers papers store topic mr =
          .error (.exc ("Unexpected error while searching for papers on " ++
            squo ++ topic ++ squo ++
            ": max_results must be between 1 and 20")))
    ∧ (∀ papers store topic mr, pyStrip topic ≠ "" → 1 ≤ mr → mr ≤ 20 →
        ∃ ids store1, search_papers papers store topic mr = .ok (ids, store1))
    ∧ (∀ papers store,
        execute_tool (_tool_mapping papers store) "search_papers"
            [("topic", .str ""), ("max_results", .int 5)] =
          .error (.toolExecution ("Tool " ++ squo ++ "search_papers" ++
            squo ++ " execution failed: " ++
            "Unexpected error while searching for papers on " ++ squo ++
            squo ++ ": Topic cannot be empty")))
    ∧ (∀ papers store,
        execute_tool (_tool_mapping papers store) "search_papers"
            [("topic", .str "quantum computing"), ("max_results", .int 21)] =
          .error (.toolExecution ("Tool " ++ squo ++ "search_papers" ++
            squo ++ " execution failed: " ++
            "Unexpected error while searching for papers on " ++ squo ++
            "quantum computing" ++ squo ++
            ": max_results must be between 1 and 20"))) := by
  refine ⟨?_, ?_, ?_, ?_, ?_⟩
  · intro papers store topic mr h
    simp [search_papers, search_papers_core, h, PyErr.msg]
    rw [String.append_assoc]
    exact congrArg _ rfl
  · intro papers store topic mr h1 h2
    have h3 : mr ≤ 0 ∨ mr > 20 := by omega
    simp [search_papers, search_papers_core, h1, h3, PyErr.msg]
    rw [String.append_assoc]
    exact congrArg _ rfl
  · intro papers store topic mr h1 h2 h3
    have h4 : ¬(mr ≤ 0 ∨ mr > 20) := by omega
    refine ⟨(mergeLoop papers ([],
        (assocLookup store (get_topic_dir topic)).getD [])).1,
      assocSet store (get_topic_dir topic)
        (mergeLoop papers ([],
          (assocLookup store (get_topic_dir topic)).getD [])).2, ?_⟩
    simp [search_papers, search_papers_core, h1, h4]
  · intro papers store
    rfl
  · intro papers store
    rfl

/-- Witness for C3: the empty topic, the cap 0, the cap 21, an in-range
cap, and the two Tool Runner calls, all at concrete inputs. -/
theorem searchPapers_validation_witness :
    search_papers [] [] "  " 5 =
        .error (.exc ("Unexpected error while searching for papers on " ++
          squo ++ "  " ++ squo ++ ": Topic cannot be empty"))
    ∧ search_papers [] [] "quantum computing" 21 =
        .error (.exc ("Unexpected error while searching for papers on " ++
          squo ++ "quantum computing" ++ squo ++
          ": max_results must be between 1 and 20"))
    ∧ (∃ ids store1,
        search_papers [] [] "quantum computing" 1 = .ok (ids, store1))
    ∧ (∃ ids store1,
        search_papers [] [] "quantum computing" 20 = .ok (ids, store1))
    ∧ execute_tool (_tool_mapping [] []) "search_papers"
          [("topic", .str ""), ("max_results", .int 5)] =
        .error (.toolExecution ("Tool " ++ squo ++ "search_papers" ++
          squo ++ " execution failed: " ++
          "Unexpected error while searching for papers on " ++ squo ++
          squo ++ ": Topic cannot be empty"))
    ∧ execute_tool (_tool_mapping [] []) "search_papers"
          [("topic", .str "quantum computing"), ("max_results", .int 21)] =
        .error (.toolExecution ("Tool " ++ squo ++ "search_papers" ++
          squo ++ " execution failed: " ++
          "Unexpected error while searching for papers on " ++ squo ++
          "quantum computing" ++ squo ++
          ": max_results must be between 1 and 20")) :=
  ⟨searchPapers_validation.1 [] [] "  " 5 rfl,
   searchPapers_validation.2.1 [] [] "quantum computing" 21
     (by decide) (by omega),
   searchPapers_validation.2.2.1 [] [] "quantum computing" 1
     (by decide) (by omega) (by omega),
   searchPapers_validation.2.2.1 [] [] "quantum computing" 20
     (by decide) (by omega) (by omega),
   searchPapers_validation.2.2.2.1 [] [],
   searchPapers_validation.2.2.2.2 [] []⟩

/-- C4: registry construction fails exactly when the schema name-set and
the implementation name-set differ, the raised error carrying both
sides of the symmetric difference (each reported list holds exactly the
names missing on that side); with equal name-sets — in particular the
actual schema list against the actual mapping — construction
succeeds. -/
theorem registry_validation :
    (∀ schema_tools mapping_tools : List String,
      ((∃ n, n ∈ schema_tools ∧ n ∉ mapping_tools) ∨
       (∃ n, n ∈ mapping_tools ∧ n ∉ schema_tools)) →
      ∃ e, ToolExecutor_init schema_tools mapping_tools = .error e ∧
        (∀ n, n ∈ e.missing_in_mapping ↔ (n ∈ schema_tools ∧ n ∉ mapping_tools)) ∧
        (∀ n, n ∈ e.missing_in_schemas ↔ (n ∈ mapping_tools ∧ n ∉ schema_tools)))
    ∧ (∀ schema_tools mapping_tools : List String,
        (∀ n, n ∈ schema_tools ↔ n ∈ mapping_tools) →
        ToolExecutor_init schema_tools mapping_tools = .ok ())
    ∧ (∀ papers store,
        ToolExecutor_init TOOL_SCHEMAS_names
          ((_tool_mapping papers store).map Prod.fst) = .ok ()) := by
  refine ⟨?_, ?_, ?_⟩
  · intro s m hdiff
    have hne : setEqNames s m = false := by
      rcases Bool.eq_false_or_eq_true (setEqNames s m) with ht | hf
      case inr => exact hf
      · exfalso
        have heq := (setEqNames_iff s m).mp ht
        rcases hdiff with ⟨n, hn1, hn2⟩ | ⟨n, hn1, hn2⟩
        · exact hn2 ((heq n).mp hn1)
        · exact hn2 ((heq n).mpr hn1)
    refine ⟨⟨s.filter (fun n => !m.contains n),
             m.filter (fun n => !s.contains n)⟩, ?_, ?_, ?_⟩
    · simp [ToolExecutor_init, hne]
    · intro n
      simp [List.mem_filter, List.contains, List.elem_iff]
    · intro n
      simp [List.mem_filter, List.contains, List.elem_iff]
  · intro s m heq
    have ht : setEqNames s m = true := (setEqNames_iff s m).mpr heq
    simp [ToolExecutor_init, ht]
  · intro papers store
    rfl

/-- Witness for C4: a schema list naming a tool with no implementation
fails, with the symmetric difference reported; the actual registry
construction succeeds. -/
theorem registry_validation_witness :
    (∃ e, ToolExecutor_init ["search_papers", "extract_info", "ghost"]
        ["search_papers", "extract_info"] = .error e ∧
      (∀ n, n ∈ e.missing_in_mapping ↔
        (n ∈ ["search_papers", "extract_info", "ghost"] ∧
         n ∉ ["search_papers", "extract_info"])) ∧
      (∀ n, n ∈ e.missing_in_schemas ↔
        (n ∈ ["search_papers", "extract_info"] ∧
         n ∉ ["search_papers", "extract_info", "ghost"])))
    ∧ ToolExecutor_init TOOL_SCHEMAS_names
        ((_tool_mapping [] []).map Prod.fst) = .ok () :=
  ⟨registry_validation.1 ["search_papers", "extract_info", "ghost"]
      ["search_papers", "extract_info"]
      (Or.inl ⟨"ghost", by decide, by decide⟩),
   registry_validation.2.2 [] []⟩

/-- C5: every name in the registered schema list resolves to an
implementation; every other name fails with ToolNotFoundError whose
message names the available tools. -/
theorem lookup_spec :
    (∀ papers store n, n ∈ TOOL_SCHEMAS_names →
      ∃ impl, assocLookup (_tool_mapping papers store) n = some impl)
    ∧ (∀ papers store n args, n ∉ TOOL_SCHEMAS_names →
        execute_tool (_tool_mapping papers store) n args =
          .error (.toolNotFound ("Tool " ++ squo ++ n ++ squo ++
            " not found. Available tools: search_papers, extract_info"))) := by
  constructor
  · intro papers store n hn
    rcases List.mem_cons.mp hn with rfl | hn2
    · exact ⟨searchPapersTool papers store, rfl⟩
    · rcases List.mem_cons.mp hn2 with rfl | hn3
      · exact ⟨extractInfoTool store, rfl⟩
      · exact absurd hn3 (List.not_mem_nil n)
  · intro papers store n args hn
    have h1 : n ≠ "search_papers" := fun h => hn (h ▸ by decide)
    have h2 : n ≠ "extract_info" := fun h => hn (h ▸ by decide)
    simp [execute_tool, _tool_mapping, assocLookup, Ne.symm h1, Ne.symm h2]
    rw [String.append_assoc]
    exact congrArg _ rfl

/-- Witness for C5: both registered names resolve, and the unregistered
name "delete_papers" fails with the not-found error listing the
available tools. -/
theorem lookup_spec_witness :
    (∃ impl, assocLookup (_tool_mapping [] []) "search_papers" = some impl)
    ∧ (∃ impl, assocLookup (_tool_mapping [] []) "extract_info" = some impl)
    ∧ execute_tool (_tool_mapping [] []) "delete_papers" [] =
        .error (.toolNotFound ("Tool " ++ squo ++ "delete_papers" ++ squo ++
          " not found. Available tools: search_papers, extract_info")) :=
  ⟨lookup_spec.1 [] [] "search_papers" (by decide),
   lookup_spec.1 [] [] "extract_info" (by decide),
   lookup_spec.2 [] [] "delete_papers" [] (by decide)⟩

/-- C7: a keyword-binding mismatch (missing or unexpected argument
keys) is reported with the distinguished "Invalid arguments" wrapping
that names the tool and lists the offending keys, and this report
differs from the generic "execution failed" wrapping used for a
tool-body failure (shown on concrete runs of both shapes). -/
theorem invalidArguments_spec :
    (∀ mapping name impl args,
      assocLookup mapping name = some impl →
      (missingKeys impl args ≠ [] ∨ unexpectedKeys impl args ≠ []) →
      execute_tool mapping name args =
        .error (.toolExecution ("Invalid arguments for tool " ++ squo ++
          name ++ squo ++ ": " ++
          typeErrorMsg impl.pyName (missingKeys impl args)
            (unexpectedKeys impl args))))
    ∧ execute_tool (_tool_mapping [] []) "search_papers"
          [("topic", .str "x"), ("bogus", .none)] =
        .error (.toolExecution ("Invalid arguments for tool " ++ squo ++
          "search_papers" ++ squo ++
          ": search_papers() keyword binding failed; missing: []; unexpected: [bogus]"))
    ∧ execute_tool (_tool_mapping [] []) "search_papers"
          [("topic", .str "")] =
        .error (.toolExecution ("Tool " ++ squo ++ "search_papers" ++
          squo ++ " execution failed: Unexpected error while searching " ++
          "for papers on " ++ squo ++ squo ++ ": Topic cannot be empty"))
    ∧ ("Invalid arguments for tool " ++ squo ++ "search_papers" ++ squo ++
        ": search_papers() keyword binding failed; missing: []; unexpected: [bogus]")
      ≠ ("Tool " ++ squo ++ "search_papers" ++ squo ++
        " execution failed: Unexpected error while searching " ++
        "for papers on " ++ squo ++ squo ++ ": Topic cannot be empty") := by
  refine ⟨?_, by rfl, by rfl, by decide⟩
  intro mapping name impl args hlookup hmismatch
  have hcond : ¬(missingKeys impl args = [] ∧ unexpectedKeys impl args = []) := by
    rcases hmismatch with h | h
    · exact fun hc => h hc.1
    · exact fun hc => h hc.2
  simp [execute_tool, hlookup, callTool, hcond]

/-- Witness for C7: calling extract_info with no arguments at all is a
binding mismatch and yields the invalid-arguments report naming the
missing key. -/
theorem invalidArguments_spec_witness :
    execute_tool (_tool_mapping [] []) "extract_info" [] =
      .error (.toolExecution ("Invalid arguments for tool " ++ squo ++
        "extract_info" ++ squo ++ ": " ++
        typeErrorMsg "extract_info" ["paper_id"] [])) :=
  invalidArguments_spec.1 (_tool_mapping [] []) "extract_info"
    (extractInfoTool []) [] rfl (Or.inl (by decide))

/-- C8: an exception raised inside a tool body (here the validation
failure for an empty topic, itself re-wrapped by search_papers' own
catch-all) is wrapped by the Tool Runner as the "execution failed"
ToolExecutionError whose text carries the tool name and, verbatim, the
underlying message; the underlying message is never suppressed. -/
theorem validationWrap_spec :
    (∀ mapping name impl args m,
      assocLookup mapping name = some impl →
      callTool impl args = .error (.exc m) →
      execute_tool mapping name args =
        .error (.toolExecution ("Tool " ++ squo ++ name ++ squo ++
          " execution failed: " ++ m)))
    ∧ (∀ papers store,
        execute_tool (_tool_mapping papers store) "search_papers"
            [("topic", .str "")] =
          .error (.toolExecution ("Tool " ++ squo ++ "search_papers" ++
            squo ++ " execution failed: " ++
            ("Unexpected error while searching for papers on " ++ squo ++
             squo ++ ": Topic cannot be empty")))) := by
  constructor
  · intro mapping name impl args m hlookup hcall
    simp [execute_tool, hlookup, hcall]
  · intro papers store
    rfl

/-- Witness for C8: the empty-topic call through the Tool Runner, with
the general wrapping lemma applied at its concrete inner message. -/
theorem validationWrap_spec_witness :
    execute_tool (_tool_mapping [] []) "search_papers"
        [("topic", .str "")] =
      .error (.toolExecution ("Tool " ++ squo ++ "search_papers" ++
        squo ++ " execution failed: " ++
        ("Unexpected error while searching for papers on " ++ squo ++
         squo ++ ": Topic cannot be empty"))) :=
  validationWrap_spec.1 (_tool_mapping [] []) "search_papers"
    (searchPapersTool [] []) [("topic", .str "")]
    ("Unexpected error while searching for papers on " ++ squo ++
     squo ++ ": Topic cannot be empty") rfl (by rfl)

/-- Counterexample to C9 as stated: writing paper 2412.07992v3 under
topic "quantum computing" while an earlier-scanned partition already
holds the same id returns the stale record on extraction, not what was
just written; and extraction with an id (the empty one) present in no
partition can return a string other than the fixed not-found string. -/
theorem roundtrip_counterexample :
    search_papers [paperNew] storeSeed "quantum computing" 5 =
      .ok (["2412.07992v3"], storeAfter)
    ∧ extract_info storeAfter "2412.07992v3" =
        .ok (jsonDump 0 (recordToPy recOld))
    ∧ recOld ≠ paper_info paperNew
    ∧ jsonDump 0 (recordToPy recOld) ≠
        jsonDump 0 (recordToPy (paper_info paperNew))
    ∧ extract_info [] "" = .ok "Paper ID cannot be empty."
    ∧ ("Paper ID cannot be empty." : String) ≠
        "No saved information found for paper ." :=
  ⟨rfl, rfl, by decide, by decide, rfl, by decide⟩

/-- C9 as amended: the write/extract round-trip through the merge/save
path returns exactly the written record — all five fields intact —
provided no other partition in the store contains the same paper id
(otherwise the first partition in scan order wins), and extraction for
a nonempty id present in no partition returns the fixed not-found
string rather than an exception (an empty id returns its own fixed
string, covered by the counterexample). -/
theorem roundtrip_amended :
    (∀ (papers : List Paper) (store : PaperStore) (topic : String)
        (mr : Int) (p : Paper),
      pyStrip topic ≠ "" → 1 ≤ mr → mr ≤ 20 →
      p ∈ papers →
      (∀ q ∈ papers, q.short_id = p.short_id → paper_info q = paper_info p) →
      pyStrip p.short_id ≠ "" →
      (∀ part ∈ store, part.1 ≠ get_topic_dir topic →
        assocLookup part.2 p.short_id = Option.none) →
      ∃ ids store1,
        search_papers papers store topic mr = .ok (ids, store1) ∧
        extract_info store1 p.short_id =
          .ok (jsonDump 0 (recordToPy (paper_info p))))
    ∧ (∀ (store : PaperStore) (pid : String), pyStrip pid ≠ "" →
        (∀ part ∈ store, assocLookup part.2 pid = Option.none) →
        extract_info store pid =
          .ok ("No saved information found for paper " ++ pid ++ ".")) := by
  constructor
  · intro papers store topic mr p htopic h1 h2 hp huniform hpid hother
    have h4 : ¬(mr ≤ 0 ∨ mr > 20) := by omega
    refine ⟨(mergeLoop papers ([],
        (assocLookup store (get_topic_dir topic)).getD [])).1,
      assocSet store (get_topic_dir topic)
        (mergeLoop papers ([],
          (assocLookup store (get_topic_dir topic)).getD [])).2, ?_, ?_⟩
    · simp [search_papers, search_papers_core, htopic, h4]
    · have hmerge : assocLookup
          (mergeLoop papers ([],
            (assocLookup store (get_topic_dir topic)).getD [])).2
          p.short_id = some (paper_info p) :=
        mergeLoop_lookup papers _ _ _ _ huniform (Or.inr ⟨p, hp, rfl⟩)
      have hfind := findPaper_assocSet store (get_topic_dir topic) _
        p.short_id (paper_info p) hmerge hother
      simp [extract_info, hpid, hfind]
  · intro store pid hpid hnone
    simp [extract_info, hpid, findPaper_none store pid hnone]

/-- Witness for C9 (amended): a concrete round-trip over a store whose
only other partition does not hold the id, and a concrete not-found
extraction. -/
theorem roundtrip_amended_witness :
    (∃ ids store1,
      search_papers [paperNew] [("ai", [("other_id", recOld)])]
          "quantum computing" 5 = .ok (ids, store1) ∧
      extract_info store1 "2412.07992v3" =
        .ok (jsonDump 0 (recordToPy (paper_info paperNew))))
    ∧ extract_info [("ai", [("other_id", recOld)])] "2412.07992v3" =
        .ok ("No saved information found for paper " ++ "2412.07992v3" ++ ".") := by
  constructor
  · refine roundtrip_amended.1 [paperNew] [("ai", [("other_id", recOld)])]
      "quantum computing" 5 paperNew (by decide) (by omega) (by omega)
      (List.mem_singleton.mpr rfl) ?_ (by decide) ?_
    · intro q hq hid
      rw [List.mem_singleton] at hq
      rw [hq]
    · intro part hpart hne
      rw [List.mem_singleton] at hpart
      rw [hpart]
      decide
  · refine roundtrip_amended.2 [("ai", [("other_id", recOld)])]
      "2412.07992v3" (by decide) ?_
    intro part hpart
    rw [List.mem_singleton] at hpart
    rw [hpart]
    decide
